import Mathlib

/-!
Shallow embedding of the pyroscope agent core (`src/pyroscope.rs`):
the tag canonicalizer `merge_tags_with_app_name`, the ingestion
function `pyroscope_ingest`, the background upload loop spawned by
`PyroscopeAgentBuilder::build`, and `PyroscopeAgent::stop`.

External collaborators (the pprof profiler guard, the report folding
encoder, the HTTP transport, the tokio timer and channel) are modelled
as per-cycle environment inputs: each loop iteration is driven by a
`CycleEnv` recording the outcome of the guard construction, which
select arm fired, the outcome of `guard.report().build()`, and the
outcome of the network send for that cycle.
-/

namespace Pyroscope

/-- The error value carried by `pprof::Result`; the variants record which
operation produced it. -/
inductive AgentError where
  | captureInit : AgentError
  | reportBuild : AgentError
  | foldFail : AgentError
  | netFail : AgentError
deriving DecidableEq, Repr

deriving instance DecidableEq for Except

/-- A pprof `Report` as seen by `pyroscope_ingest`: the result of
`report.fold(true, &mut buffer)` (the encoded byte payload, or an error),
the start time in unix seconds (`timing.start_time` after
`duration_since(UNIX_EPOCH).as_secs()`, a u64), and `sample_rate`. -/
structure Report where
  foldResult : Except AgentError (List Nat)
  start_time : Nat
  sample_rate : Nat
deriving DecidableEq, Repr

/-- One outbound HTTP POST as assembled by `pyroscope_ingest`. -/
structure PostRequest where
  url : String
  contentType : String
  query : List (String × String)
  body : List Nat
deriving DecidableEq, Repr

/-- Embedding of `pyroscope_ingest(report, url, application_name)`.

`netResult` is the transport's answer to `send()` for this call. The
returned pair is (the function's `Result`, the request that went on the
wire, if any). Mirrors the source: fold the report (`?` on failure); if
the buffer is empty return `Ok(())` with no network call; otherwise
compute `s_start = start - start % 10`, `s_until = s_start + 10` (u64
arithmetic, so the addition wraps at `2 ^ 64`), issue the POST and
propagate the transport's result with `?`. -/
def pyroscope_ingest (report : Report) (url application_name : String)
    (netResult : Except AgentError Unit) :
    Except AgentError Unit × Option PostRequest :=
  match report.foldResult with
  | .error e => (.error e, none)
  | .ok buffer =>
    if buffer.isEmpty then (.ok (), none)
    else
      let start := report.start_time
      let s_start := start - start % 10
      let s_until := (s_start + 10) % 2 ^ 64
      let req : PostRequest :=
        { url := url ++ "/ingest"
          contentType := "binary/octet-stream"
          query := [("name", application_name),
                    ("from", toString s_start),
                    ("until", toString s_until),
                    ("format", "folded"),
                    ("sampleRate", toString report.sample_rate),
                    ("spyName", "pprof-rs")]
          body := buffer }
      (netResult, some req)

/-- Lexicographic `≤` on character sequences, by code point. On valid
UTF-8 this is the byte-wise lexicographic order that Rust's `Ord` for
`String` uses. -/
def charListLe : List Char → List Char → Bool
  | [], _ => true
  | _ :: _, [] => false
  | a :: as, b :: bs =>
    if a.val.toNat < b.val.toNat then true
    else if b.val.toNat < a.val.toNat then false
    else charListLe as bs

/-- Lexicographic `≤` on strings. -/
def strLe (a b : String) : Bool := charListLe a.data b.data

/-- Insertion of a string into a lexicographically sorted list, used to
model `Vec::sort` on `Vec<String>` (lexicographic order). -/
def insertSorted (s : String) : List String → List String
  | [] => [s]
  | x :: xs => if strLe s x then s :: x :: xs else x :: insertSorted s xs

/-- Insertion sort on strings, the model of `tags_vec.sort()`. -/
def sortStrings : List String → List String
  | [] => []
  | x :: xs => insertSorted x (sortStrings xs)

/-- Embedding of `merge_tags_with_app_name(application_name, tags)`.
The `HashMap` is modelled as an association list (iteration order is
arbitrary in the source; the sort makes the result independent of it). -/
def merge_tags_with_app_name (application_name : String)
    (tags : List (String × String)) : String :=
  let tags_vec := (tags.filter (fun kv => kv.1 != "__name__")).map
    (fun kv => kv.1 ++ "=" ++ kv.2)
  let sorted := sortStrings tags_vec
  let tags_str := String.intercalate "," sorted
  if !tags_str.isEmpty then
    application_name ++ "\x7b" ++ tags_str ++ "\x7d"
  else
    application_name

/-- Reference definition of the tag canonicalizer, written from the
spec's words: drop every entry whose key is `__name__`, format each
remaining entry as `key=value`, sort the resulting strings
lexicographically by the full `key=value` string, join with `,`; if the
joined string is empty return the application name unchanged, otherwise
the application name followed by the joined string in braces. -/
def mergeSpecification (application_name : String)
    (tags : List (String × String)) : String :=
  let kept := tags.filter (fun kv => kv.1 != "__name__")
  let formatted := kept.map (fun kv => kv.1 ++ "=" ++ kv.2)
  let joined := String.intercalate "," (sortStrings formatted)
  if joined.isEmpty then application_name
  else application_name ++ "\x7b" ++ joined ++ "\x7d"

/-- Which arm of the `tokio::select!` fires on a given loop iteration:
the 10-second interval tick, or the reception of the stop request (the
channel delivering a message, or returning `None` because the sender
was dropped — both fire the same arm). -/
inductive Event where
  | tick : Event
  | stopRecv : Event
deriving DecidableEq, Repr

/-- The environment of one iteration of the background loop: the result
of `self.inner_builder.clone().build()` (modelled as `Ok ()` for a live
guard, since the guard's data only surfaces through the report), which
select arm fired, the result of `guard.report().build()`, and the
transport's answer to this cycle's `send()` (unused when no request
goes out). -/
structure CycleEnv where
  guardBuild : Except AgentError Unit
  event : Event
  reportBuild : Except AgentError Report
  netResult : Except AgentError Unit
deriving DecidableEq, Repr

/-- One iteration of the loop body in `PyroscopeAgentBuilder::build`.
Returns `(some r, post)` when the iteration leaves the loop (via
`break` or via `?` propagating an error out of the async block) with
result `r`, and `(none, post)` when the loop continues; `post` is the
request this iteration put on the wire, if any. -/
def loopIter (url application_name : String) (c : CycleEnv) :
    Option (Except AgentError Unit) × Option PostRequest :=
  match c.guardBuild with
  | .error err => (some (.error err), none)
  | .ok _ =>
    match c.event with
    | .tick =>
      match c.reportBuild with
      | .error e => (some (.error e), none)
      | .ok report =>
        match pyroscope_ingest report url application_name c.netResult with
        | (.error e, post) => (some (.error e), post)
        | (.ok _, post) => (none, post)
    | .stopRecv =>
      match c.reportBuild with
      | .error e => (some (.error e), none)
      | .ok report =>
        match pyroscope_ingest report url application_name c.netResult with
        | (.error e, post) => (some (.error e), post)
        | (.ok _, post) => (some (.ok ()), post)

/-- The background loop run against a finite trace of per-iteration
environments. Returns the task's terminal result (`none` when the trace
is exhausted with the loop still running) together with the list of
POST requests issued, in order. -/
def runLoop (url application_name : String) :
    List CycleEnv → Option (Except AgentError Unit) × List PostRequest
  | [] => (none, [])
  | c :: rest =>
    match loopIter url application_name c with
    | (some r, post) => (some r, post.toList)
    | (none, post) =>
      let tail := runLoop url application_name rest
      (tail.1, post.toList ++ tail.2)

/-- Observable outcome of `PyroscopeAgent::stop`. -/
inductive StopOutcome where
  | returned (r : Except AgentError Unit) : StopOutcome
  | panicked : StopOutcome
deriving DecidableEq, Repr

/-- Embedding of `PyroscopeAgent::stop`: `self.stopper.send(()).await`
succeeds while the background task (owner of the receiver) is still
alive, and returns an error once the task has terminated and dropped
the receiver — in which case `.unwrap()` panics. Otherwise
`self.handler.await.unwrap()?` yields the task's result, and `Ok(())`
is returned on success. `receiverAlive` records whether the task was
still running when the send was attempted; `taskResult` is the value
the task terminated with. -/
def agentStop (receiverAlive : Bool) (taskResult : Except AgentError Unit) :
    StopOutcome :=
  if receiverAlive then
    match taskResult with
    | .error e => .returned (.error e)
    | .ok _ => .returned (.ok ())
  else
    .panicked

/-- A prefix of iterations on which the loop keeps running contributes
its posts and leaves the rest of the trace to decide the outcome. -/
theorem runLoop_append_continuing (url n : String) (pre rest : List CycleEnv)
    (h : ∀ x ∈ pre, (loopIter url n x).1 = none) :
    runLoop url n (pre ++ rest) =
      ((runLoop url n rest).1,
       pre.filterMap (fun x => (loopIter url n x).2) ++ (runLoop url n rest).2) := by
  induction pre with
  | nil => simp [runLoop]
  | cons c cs ih =>
    have hc : (loopIter url n c).1 = none := h c (by simp)
    have hcs : ∀ x ∈ cs, (loopIter url n x).1 = none := by
      intro x hx
      exact h x (by simp [hx])
    simp only [List.cons_append, runLoop]
    rcases hiter : loopIter url n c with ⟨res, post⟩
    rw [hiter] at hc
    simp only at hc
    subst hc
    simp only [ih hcs, hiter, List.filterMap_cons]
    cases post <;> simp [ih hcs]

/-- Evaluation of `pyroscope_ingest` on a report whose fold produced a
non-empty buffer: the POST is assembled and the transport's answer is
the function's result. -/
theorem ingest_post_of_fold (r : Report) (url n : String)
    (net : Except AgentError Unit) (a : Nat) (l : List Nat)
    (hf : r.foldResult = .ok (a :: l)) :
    pyroscope_ingest r url n net =
      (net, some
        { url := url ++ "/ingest"
          contentType := "binary/octet-stream"
          query := [("name", n),
                    ("from", toString (r.start_time - r.start_time % 10)),
                    ("until", toString ((r.start_time - r.start_time % 10 + 10) % 2 ^ 64)),
                    ("format", "folded"),
                    ("sampleRate", toString r.sample_rate),
                    ("spyName", "pprof-rs")]
          body := a :: l }) := by
  unfold pyroscope_ingest
  rw [hf]
  rfl

/-- Claim C4: the tag canonicalizer of the source equals the reference
definition written from the spec (drop `__name__`, format `key=value`,
sort by the full string, join with commas, brace-suffix when
non-empty); moreover `merge("a", [z=1, a=2]) = "a{a=2,z=1}"`,
`merge(N, []) = N`, and `merge(N, [__name__=x]) = N`. -/
theorem merge_tags_matches_reference :
    (∀ (n : String) (tags : List (String × String)),
      merge_tags_with_app_name n tags = mergeSpecification n tags)
    ∧ merge_tags_with_app_name "a" [("z", "1"), ("a", "2")] = "a\x7ba=2,z=1\x7d"
    ∧ (∀ n : String, merge_tags_with_app_name n [] = n)
    ∧ (∀ n : String, merge_tags_with_app_name n [("__name__", "x")] = n) := by
  refine ⟨?_, by decide, ?_, ?_⟩
  · intro n tags
    simp only [merge_tags_with_app_name, mergeSpecification]
    cases h : (String.intercalate ","
        (sortStrings ((tags.filter (fun kv => kv.1 != "__name__")).map
          (fun kv => kv.1 ++ "=" ++ kv.2)))).isEmpty <;>
      simp [h]
  · intro n
    rfl
  · intro n
    rfl

/-- Claim C7: a report whose encoded payload is empty is a no-op
upload: `pyroscope_ingest` returns success and issues no network call,
whatever the transport would have answered. -/
theorem empty_payload_is_noop (r : Report) (url n : String)
    (net : Except AgentError Unit) (hf : r.foldResult = .ok []) :
    pyroscope_ingest r url n net = (.ok (), none) := by
  unfold pyroscope_ingest
  rw [hf]
  rfl

/-- Witness for C7 at a concrete report (the transport would have
failed, but it is never consulted). -/
theorem empty_payload_is_noop_witness :
    pyroscope_ingest ⟨.ok [], 12345, 99⟩ "http://localhost:4040" "app"
      (.error .netFail) = (.ok (), none) :=
  empty_payload_is_noop ⟨.ok [], 12345, 99⟩ "http://localhost:4040" "app"
    (.error .netFail) rfl

/-- Claim C8: a report with a non-empty encoded payload makes
`pyroscope_ingest` issue exactly one POST, to `{url}/ingest`, with
content type `binary/octet-stream`, the encoded bytes as the body, and
query parameters `name` (canonical series name), `from`/`until` (the
window bounds), `format=folded`, `sampleRate` and `spyName`. -/
theorem nonempty_payload_posts_once (r : Report) (url n : String)
    (net : Except AgentError Unit) (buf : List Nat)
    (hf : r.foldResult = .ok buf) (hb : buf ≠ []) :
    (pyroscope_ingest r url n net).2 = some
      { url := url ++ "/ingest"
        contentType := "binary/octet-stream"
        query := [("name", n),
                  ("from", toString (r.start_time - r.start_time % 10)),
                  ("until", toString ((r.start_time - r.start_time % 10 + 10) % 2 ^ 64)),
                  ("format", "folded"),
                  ("sampleRate", toString r.sample_rate),
                  ("spyName", "pprof-rs")]
        body := buf } := by
  cases buf with
  | nil => exact absurd rfl hb
  | cons a l => rw [ingest_post_of_fold r url n net a l hf]

/-- Witness for C8: the spec's scenario — app name `svc`, tag
`env=prod`, one tick — produces the expected single POST. -/
theorem nonempty_payload_posts_once_witness :
    (pyroscope_ingest ⟨.ok [42], 12345, 100⟩ "http://h"
        (merge_tags_with_app_name "svc" [("env", "prod")]) (.ok ())).2 = some
      { url := "http://h/ingest"
        contentType := "binary/octet-stream"
        query := [("name", "svc\x7benv=prod\x7d"), ("from", "12340"),
                  ("until", "12350"), ("format", "folded"),
                  ("sampleRate", "100"), ("spyName", "pprof-rs")]
        body := [42] } := by
  exact nonempty_payload_posts_once ⟨.ok [42], 12345, 100⟩ "http://h"
    (merge_tags_with_app_name "svc" [("env", "prod")]) (.ok ()) [42] rfl
    (by decide)

/-- Claim C6: the upload window sent by `pyroscope_ingest` is the
report's start time (unix seconds) floored to the nearest multiple of
10, and that value plus 10 — independently of the sample rate, which
only appears in the separate `sampleRate` parameter. -/
theorem upload_window_floored (r : Report) (url n : String)
    (net : Except AgentError Unit) (buf : List Nat)
    (hf : r.foldResult = .ok buf) (hb : buf ≠ [])
    (hrange : r.start_time + 10 < 2 ^ 64) :
    ∃ req, (pyroscope_ingest r url n net).2 = some req
      ∧ ("from", toString (10 * (r.start_time / 10))) ∈ req.query
      ∧ ("until", toString (10 * (r.start_time / 10) + 10)) ∈ req.query := by
  have h1 : r.start_time - r.start_time % 10 = 10 * (r.start_time / 10) := by
    omega
  have h2 : (r.start_time - r.start_time % 10 + 10) % 2 ^ 64
      = 10 * (r.start_time / 10) + 10 := by
    rw [h1]
    exact Nat.mod_eq_of_lt (by omega)
  cases buf with
  | nil => exact absurd rfl hb
  | cons a l =>
    rw [ingest_post_of_fold r url n net a l hf]
    refine ⟨_, rfl, ?_, ?_⟩
    · rw [← h1]
      exact List.mem_cons_of_mem _ (List.mem_cons_self _ _)
    · rw [← h2]
      exact List.mem_cons_of_mem _ (List.mem_cons_of_mem _ (List.mem_cons_self _ _))

/-- Witness for C6: a start time of unix 12345 yields the window
`from = 12340`, `until = 12350`. -/
theorem upload_window_floored_witness :
    (12345 : Nat) + 10 < 2 ^ 64
    ∧ ∃ req, (pyroscope_ingest ⟨.ok [7], 12345, 44⟩ "u" "a" (.ok ())).2 = some req
        ∧ ("from", "12340") ∈ req.query ∧ ("until", "12350") ∈ req.query := by
  refine ⟨by norm_num, ?_⟩
  exact upload_window_floored ⟨.ok [7], 12345, 44⟩ "u" "a" (.ok ()) [7] rfl
    (by decide) (by norm_num)

/-- Counterexample to claim C1: a trace whose first cycle is a tick
whose upload fails at the transport. The loop terminates at once with
that error — the second, healthy cycle is never reached — even though
the capture handle never failed: the `?` after `pyroscope_ingest` in
the tick arm propagates the error out of the async block. -/
theorem tick_ingest_error_cex :
    runLoop "u" "a"
      [⟨.ok (), .tick, .ok ⟨.ok [1], 0, 100⟩, .error .netFail⟩,
       ⟨.ok (), .tick, .ok ⟨.ok [1], 0, 100⟩, .ok ()⟩]
      = (some (.error .netFail),
         [{ url := "u/ingest"
            contentType := "binary/octet-stream"
            query := [("name", "a"), ("from", "0"), ("until", "10"),
                      ("format", "folded"), ("sampleRate", "100"),
                      ("spyName", "pprof-rs")]
            body := [1] }]) := by
  decide

/-- Claim C1 (amended): an `IngestError` returned by the upload of a
tick terminates the background loop: the error propagates out of the
async block and becomes the task's terminal result; the loop does not
proceed to the next iteration. -/
theorem tick_ingest_error_terminates (url n : String) (c : CycleEnv)
    (rest : List CycleEnv) (r : Report) (e : AgentError)
    (hg : c.guardBuild = .ok ()) (he : c.event = .tick)
    (hr : c.reportBuild = .ok r)
    (hfold : ∃ buf, r.foldResult = .ok buf ∧ buf ≠ [])
    (hnet : c.netResult = .error e) :
    (runLoop url n (c :: rest)).1 = some (.error e) := by
  obtain ⟨buf, hf, hb⟩ := hfold
  cases buf with
  | nil => exact absurd rfl hb
  | cons a l =>
    have hing := ingest_post_of_fold r url n c.netResult a l hf
    rw [hnet] at hing
    simp [runLoop, loopIter, hg, he, hr, hnet, hing]

/-- Witness for the amended C1 at a concrete trace. -/
theorem tick_ingest_error_terminates_witness :
    (runLoop "hw" "ap"
      [⟨.ok (), .tick, .ok ⟨.ok [2], 5, 9⟩, .error .netFail⟩]).1
      = some (.error .netFail) :=
  tick_ingest_error_terminates "hw" "ap"
    ⟨.ok (), .tick, .ok ⟨.ok [2], 5, 9⟩, .error .netFail⟩ [] ⟨.ok [2], 5, 9⟩
    .netFail rfl rfl rfl ⟨[2], rfl, by decide⟩ rfl

/-- Claim C2: when a running task observes the stop request, the cycle
observing it performs one final capture and upload through
`pyroscope_ingest` — the same path as a tick — and the task terminates
with that upload's result; `stop`, whose send succeeded on the live
channel, waits for the task and returns `Ok(())` if the task produced
`Ok`, and the task's failure value otherwise. -/
theorem stop_flushes_and_returns (url n : String) (pre : List CycleEnv)
    (c : CycleEnv) (r : Report)
    (hpre : ∀ x ∈ pre, (loopIter url n x).1 = none)
    (hg : c.guardBuild = .ok ()) (he : c.event = .stopRecv)
    (hr : c.reportBuild = .ok r) :
    runLoop url n (pre ++ [c]) =
      (some ((pyroscope_ingest r url n c.netResult).1),
       pre.filterMap (fun x => (loopIter url n x).2)
         ++ ((pyroscope_ingest r url n c.netResult).2).toList)
    ∧ agentStop true ((pyroscope_ingest r url n c.netResult).1)
        = .returned ((pyroscope_ingest r url n c.netResult).1) := by
  have hstep : loopIter url n c =
      (some ((pyroscope_ingest r url n c.netResult).1),
       (pyroscope_ingest r url n c.netResult).2) := by
    simp only [loopIter, hg, he, hr]
    rcases hi : pyroscope_ingest r url n c.netResult with ⟨res, post⟩
    cases res with
    | error e => simp
    | ok u => cases u; simp
  constructor
  · rw [runLoop_append_continuing url n pre [c] hpre]
    simp [runLoop, hstep]
  · cases hres : (pyroscope_ingest r url n c.netResult).1 with
    | error e => rfl
    | ok u => cases u; rfl

/-- Witness for C2: one healthy tick, then a stop request whose final
flush succeeds; the whole run and the stop return value evaluated. -/
theorem stop_flushes_and_returns_witness :
    runLoop "u" "a"
      ([⟨.ok (), .tick, .ok ⟨.ok [3], 20, 50⟩, .ok ()⟩]
        ++ [⟨.ok (), .stopRecv, .ok ⟨.ok [4], 37, 50⟩, .ok ()⟩])
      = (some ((pyroscope_ingest ⟨.ok [4], 37, 50⟩ "u" "a" (.ok ())).1),
         [⟨.ok (), .tick, .ok ⟨.ok [3], 20, 50⟩, .ok ()⟩].filterMap
           (fun x => (loopIter "u" "a" x).2)
         ++ ((pyroscope_ingest ⟨.ok [4], 37, 50⟩ "u" "a" (.ok ())).2).toList)
    ∧ agentStop true ((pyroscope_ingest ⟨.ok [4], 37, 50⟩ "u" "a" (.ok ())).1)
        = .returned ((pyroscope_ingest ⟨.ok [4], 37, 50⟩ "u" "a" (.ok ())).1) :=
  stop_flushes_and_returns "u" "a"
    [⟨.ok (), .tick, .ok ⟨.ok [3], 20, 50⟩, .ok ()⟩]
    ⟨.ok (), .stopRecv, .ok ⟨.ok [4], 37, 50⟩, .ok ()⟩ ⟨.ok [4], 37, 50⟩
    (by decide) rfl rfl rfl

/-- Counterexample to claim C3: when capture initialization fails, the
task terminates with the failure before any POST, but a `stop` whose
send happens after that termination panics on the closed channel
instead of returning the failure. -/
theorem init_failure_stop_panics_cex :
    runLoop "u" "a" [⟨.error .captureInit, .tick, .ok ⟨.ok [1], 0, 100⟩, .ok ()⟩]
        = (some (.error .captureInit), [])
      ∧ agentStop false (.error .captureInit) = .panicked
      ∧ agentStop false (.error .captureInit)
          ≠ .returned (.error .captureInit) := by
  refine ⟨by decide, rfl, by decide⟩

/-- Claim C3 (amended): if guard construction fails on the first
iteration, the task terminates immediately carrying that failure — no
tick is serviced and no POST is issued; `stop` returns that failure
when its request was sent while the task was still alive, and panics on
the closed channel when the task had already terminated. -/
theorem init_failure_semantics (url n : String) (c : CycleEnv)
    (rest : List CycleEnv) (e : AgentError)
    (hg : c.guardBuild = .error e) :
    runLoop url n (c :: rest) = (some (.error e), [])
      ∧ agentStop true (.error e) = .returned (.error e)
      ∧ agentStop false (.error e) = .panicked := by
  refine ⟨?_, rfl, rfl⟩
  simp [runLoop, loopIter, hg]

/-- Witness for the amended C3 at a concrete trace. -/
theorem init_failure_semantics_witness :
    runLoop "u" "a"
        [⟨.error .captureInit, .stopRecv, .ok ⟨.ok [9], 3, 7⟩, .ok ()⟩,
         ⟨.ok (), .tick, .ok ⟨.ok [9], 3, 7⟩, .ok ()⟩]
        = (some (.error .captureInit), [])
      ∧ agentStop true (.error .captureInit) = .returned (.error .captureInit)
      ∧ agentStop false (.error .captureInit) = .panicked :=
  init_failure_semantics "u" "a"
    ⟨.error .captureInit, .stopRecv, .ok ⟨.ok [9], 3, 7⟩, .ok ()⟩
    [⟨.ok (), .tick, .ok ⟨.ok [9], 3, 7⟩, .ok ()⟩] .captureInit rfl

/-- Counterexample to claim C9: `stop` invoked after the background
task has already completed — the receiver side of the stop channel is
dropped — panics at `self.stopper.send(()).await.unwrap()` rather than
returning a "not running" value. -/
theorem stop_after_completion_panics_cex :
    agentStop false (.ok ()) = .panicked := rfl

/-- Claim C9 (amended): `stop` consumes the agent by value, so a second
call cannot be made and an agent without a started task cannot exist
(`build` spawns the task); the one reachable "not running" situation —
a single `stop` after the background task has already completed —
panics on the closed stop channel, whatever the task's result was;
there is no "not running" return value. -/
theorem stop_not_running_panics (r : Except AgentError Unit) :
    agentStop false r = .panicked := rfl

/-- Claim C10: every iteration of the loop constructs a fresh capture
guard from a clone of the profiler builder before waiting on the select
(modelled by the per-cycle `guardBuild` field of `CycleEnv`); a
guard-construction failure on any iteration — after any number of
completed cycles, not only the first — terminates the task with that
error as its result, the failing iteration issuing no POST. -/
theorem guard_failure_any_iteration (url n : String)
    (pre rest : List CycleEnv) (c : CycleEnv) (e : AgentError)
    (hpre : ∀ x ∈ pre, (loopIter url n x).1 = none)
    (hg : c.guardBuild = .error e) :
    runLoop url n (pre ++ c :: rest) =
      (some (.error e), pre.filterMap (fun x => (loopIter url n x).2)) := by
  rw [runLoop_append_continuing url n pre (c :: rest) hpre]
  simp [runLoop, loopIter, hg]

/-- Witness for C10: the guard fails on the third iteration, after two
completed tick cycles; the task ends with the capture failure, keeping
the two earlier POSTs. -/
theorem guard_failure_any_iteration_witness :
    runLoop "u" "a"
      ([⟨.ok (), .tick, .ok ⟨.ok [1], 11, 5⟩, .ok ()⟩,
        ⟨.ok (), .tick, .ok ⟨.ok [2], 22, 5⟩, .ok ()⟩]
        ++ ⟨.error .captureInit, .tick, .ok ⟨.ok [3], 33, 5⟩, .ok ()⟩
          :: [⟨.ok (), .tick, .ok ⟨.ok [4], 44, 5⟩, .ok ()⟩])
      = (some (.error .captureInit),
         [⟨.ok (), .tick, .ok ⟨.ok [1], 11, 5⟩, .ok ()⟩,
          ⟨.ok (), .tick, .ok ⟨.ok [2], 22, 5⟩, .ok ()⟩].filterMap
           (fun x => (loopIter "u" "a" x).2)) :=
  guard_failure_any_iteration "u" "a"
    [⟨.ok (), .tick, .ok ⟨.ok [1], 11, 5⟩, .ok ()⟩,
     ⟨.ok (), .tick, .ok ⟨.ok [2], 22, 5⟩, .ok ()⟩]
    [⟨.ok (), .tick, .ok ⟨.ok [4], 44, 5⟩, .ok ()⟩]
    ⟨.error .captureInit, .tick, .ok ⟨.ok [3], 33, 5⟩, .ok ()⟩ .captureInit
    (by decide) rfl

end Pyroscope
